import Mathlib

/-!
Verification of the pabulib checker (`pabulib/checker.py`).

The development shallowly embeds the `Checker` dataclass and the per-file
checks it runs.  Parsed PB data is represented the way the Python runtime
holds it after `parse_pb_lines`: ordered string-keyed dictionaries whose
values are raw strings.  Python exceptions (KeyError, ValueError,
StopIteration, ...) are modelled by `Option`: a check returns `none` when
the Python code would raise.

Python numeric builtins are modelled exactly on the decimal strings that
occur in PB files: `int(s)` by `pyInt?`, `float(s)` by `pyDec?`, which
yields an exact scaled-decimal value (`Dec`).  On such inputs the binary
rounding of CPython floats is value-preserving for every comparison the
checker performs, so the exact model coincides with the runtime.
-/

/-! ## Python-style string primitives (over the character list of a `String`) -/

def isPySpace (c : Char) : Bool :=
  c == ' ' || c == '\t' || c == '\n' || c == '\r'

/-- `str.strip()` on a character list. -/
def trimChars (l : List Char) : List Char :=
  ((l.dropWhile isPySpace).reverse.dropWhile isPySpace).reverse

/-- `str.split(sep)` for a one-character separator (the checker only splits
on `","` and `"."`). -/
def splitChar (sep : Char) : List Char → List (List Char)
  | [] => [[]]
  | c :: rest =>
    let r := splitChar sep rest
    if c == sep then [] :: r
    else
      match r with
      | h :: t => (c :: h) :: t
      | [] => [[c]]

/-- `str.split(sep)` returning strings. -/
def pySplit (s : String) (sep : Char) : List String :=
  (splitChar sep s.data).map String.mk

/-- membership test `sep in s` for a one-character needle. -/
def pyContains (s : String) (c : Char) : Bool :=
  s.data.any (fun d => d == c)

/-- `str.replace(old, new)` for one-character `old`/`new` (the checker only
replaces `","` by `"."`). -/
def pyReplace (s : String) (old new : Char) : String :=
  String.mk (s.data.map (fun c => if c == old then new else c))

/-- `str.strip()`. -/
def pyStrip (s : String) : String := String.mk (trimChars s.data)

def allDigits (l : List Char) : Bool :=
  l.all Char.isDigit

def digitsToNat (l : List Char) : Nat :=
  l.foldl (fun a c => a * 10 + (c.toNat - 48)) 0

/-- Python `int(s)` for a string argument: optional surrounding whitespace,
optional sign, one or more decimal digits; `none` models `ValueError`. -/
def pyInt? (s : String) : Option Int :=
  let t := trimChars s.data
  match t with
  | '-' :: ds => if ds ≠ [] ∧ allDigits ds then some (-(digitsToNat ds : Int)) else none
  | '+' :: ds => if ds ≠ [] ∧ allDigits ds then some (digitsToNat ds : Int) else none
  | ds => if ds ≠ [] ∧ allDigits ds then some (digitsToNat ds : Int) else none

/-! ## Exact decimal numbers (the model of CPython floats on PB data) -/

/-- An exact scaled decimal: the value `m / 10 ^ e`. -/
structure Dec where
  m : Int
  e : Nat
deriving DecidableEq, Repr

def Dec.ofInt (n : Int) : Dec := ⟨n, 0⟩

def Dec.leb (a b : Dec) : Bool :=
  a.m * (10 : Int) ^ b.e ≤ b.m * (10 : Int) ^ a.e

def Dec.ltb (a b : Dec) : Bool :=
  a.m * (10 : Int) ^ b.e < b.m * (10 : Int) ^ a.e

def Dec.eqb (a b : Dec) : Bool :=
  a.m * (10 : Int) ^ b.e == b.m * (10 : Int) ^ a.e

def Dec.sub (a b : Dec) : Dec :=
  ⟨a.m * (10 : Int) ^ b.e - b.m * (10 : Int) ^ a.e, a.e + b.e⟩

def Dec.mul (a b : Dec) : Dec :=
  ⟨a.m * b.m, a.e + b.e⟩

/-- `math.floor` of an exact decimal. -/
def Dec.floor (a : Dec) : Int :=
  Int.fdiv a.m ((10 : Int) ^ a.e)

/-- Python `float(s)` on the decimal literals that occur in PB files:
optional surrounding whitespace, optional sign, then `d+`, `d+.d*`, `.d+`
or `d*.d+`; `none` models `ValueError`.  (`inf`, `nan` and exponent forms
never occur in the data and are not modelled.) -/
def pyDec? (s : String) : Option Dec :=
  let t := trimChars s.data
  let (sgn, body) : Int × List Char :=
    match t with
    | '-' :: r => (-1, r)
    | '+' :: r => (1, r)
    | r => (1, r)
  match splitChar '.' body with
  | [ds] =>
    if ds ≠ [] ∧ allDigits ds then some ⟨sgn * digitsToNat ds, 0⟩ else none
  | [a, b] =>
    if (a ≠ [] ∨ b ≠ []) ∧ allDigits a ∧ allDigits b then
      some ⟨sgn * (digitsToNat a * (10 : Int) ^ b.length + digitsToNat b), b.length⟩
    else none
  | _ => none

/-! ## String rendering helpers (Python `str`/`repr` output used in messages) -/

/-- A single-quote character as a string (used by Python `repr` output). -/
def sglq : String := String.singleton (Char.ofNat 39)

def natToStringAux : Nat → Nat → String
  | 0, _ => ""
  | fuel + 1, n =>
    if n == 0 then ""
    else natToStringAux fuel (n / 10) ++ String.singleton (Char.ofNat (48 + n % 10))

/-- Decimal rendering of a `Nat` (the output of Python `str(n)`). -/
def natToString (n : Nat) : String :=
  if n == 0 then "0" else natToStringAux (n + 1) n

/-- Decimal rendering of an `Int` (the output of Python `str(n)`). -/
def intToString (n : Int) : String :=
  if n < 0 then "-" ++ natToString n.natAbs else natToString n.natAbs

/-- Python `repr` of a list of ints, e.g. `[2, 5]`. -/
def pyIntListRepr (l : List Nat) : String :=
  "[" ++ String.intercalate ", " (l.map natToString) ++ "]"

/-- Python `repr` of a list of strings, e.g. `['a', 'b']`. -/
def pyStrListRepr (l : List String) : String :=
  "[" ++ String.intercalate ", " (l.map (fun s => sglq ++ s ++ sglq)) ++ "]"

/-- Python `repr` of a non-empty set of strings in insertion order,
e.g. `{'a', 'b'}` (the literal braces are the characters 0x7b/0x7d). -/
def pySetRepr (l : List String) : String :=
  "\x7b" ++ String.intercalate ", " (l.map (fun s => sglq ++ s ++ sglq)) ++ "\x7d"

/-- Rendering of `{s or ''}` inside an f-string: empty set prints as the
empty string, a non-empty one with its set repr. -/
def pySetOrEmpty (l : List String) : String :=
  if l.isEmpty then "" else pySetRepr l

def groupThrees (l : List Char) : List Char :=
  (l.reverse.enum.foldl
    (fun acc p =>
      if p.1 ≠ 0 ∧ p.1 % 3 == 0 then p.2 :: ',' :: acc else p.2 :: acc)
    [])

/-- Modelled from the spec: `utilities.get_str_with_sep_from` (the helpers
package is not under `src/`); renders a number with `,` thousands
separators as in `f"{n:,}"`, e.g. `12345 ↦ "12,345"`. -/
def getStrWithSepFrom (n : Int) : String :=
  (if n < 0 then "-" else "") ++ String.mk (groupThrees (natToString n.natAbs).data)

/-! ## Ordered dictionaries (Python `dict` with string keys) -/

/-- `d.get(k)` / `d[k]` lookup on an insertion-ordered dictionary. -/
def dGet? {α : Type} : List (String × α) → String → Option α
  | [], _ => none
  | p :: rest, k => if p.1 == k then some p.2 else dGet? rest k

/-- `d[k] = v`: replace in place if the key exists, else append. -/
def dSet {α : Type} : List (String × α) → String → α → List (String × α)
  | [], k, v => [(k, v)]
  | (k2, v2) :: rest, k, v =>
    if k2 == k then (k, v) :: rest else (k2, v2) :: dSet rest k v

/-- Lookup with a default (the read of a `defaultdict`). -/
def dGetD {α : Type} (d : List (String × α)) (k : String) (dv : α) : α :=
  (dGet? d k).getD dv

/-- Read of a `defaultdict(int)`: returns the stored value and the
dictionary extended with the default when the key was absent (CPython
inserts the default on lookup). -/
def ddRead (d : List (String × Nat)) (k : String) : Nat × List (String × Nat) :=
  match dGet? d k with
  | some v => (v, d)
  | none => (0, d ++ [(k, 0)])

/-- Python truthiness of an optional string (`None` and `""` are falsy). -/
def truthy : Option String → Bool
  | none => false
  | some s => ¬ s.isEmpty

/-- Python `a or b` on optional strings: `a` when truthy, else `b`. -/
def pyOr (a b : Option String) : Option String :=
  if truthy a then a else b

/-! ## The checker state -/

/-- The mutable fields of `Checker` that `add_error` touches: per-file
results (`self.file_results`), the per-type counters
(`self.error_counters = defaultdict(lambda: 1)`, created once in
`__post_init__`) and the global summary (`self.results["summary"]`). -/
structure ErrSt where
  fileResults : List (String × List (Nat × String)) := []
  errorCounters : List (String × Nat) := []
  summary : List (String × Nat) := []
deriving DecidableEq, Repr

/-- `Checker.add_error`: number the diagnostic with the current per-type
counter, store it under its type in `file_results`, bump the counter and
the global summary. -/
def addError (st : ErrSt) (type details : String) : ErrSt :=
  let current := dGetD st.errorCounters type 1
  let fr :=
    match dGet? st.fileResults type with
    | some m => dSet st.fileResults type (m ++ [(current, details)])
    | none => st.fileResults ++ [(type, [(current, details)])]
  { fileResults := fr
    errorCounters := dSet st.errorCounters type (current + 1)
    summary := dSet st.summary type (dGetD st.summary type 0 + 1) }

/-! ## Parsed file data -/

/-- A string-valued record (one META section, one project, one vote). -/
abbrev Dict := List (String × String)

/-- A parsed PB file as `process_files` sees it: the split lines plus the
five-tuple returned by `parse_pb_lines`.  `parse_pb_lines` itself lives in
the helpers package, which is not under `src/`; inputs are therefore
represented directly by their parse, whose raw values are strings. -/
structure PBFile where
  lines : List String
  meta : Dict
  projects : List (String × Dict)
  votes : List (String × Dict)
  votesInProjects : Bool
  scoresInProjects : Bool

/-! ## `check_empty_lines` -/

/-- `Checker.check_empty_lines`: pop the last line when it is blank, then
report the 1-based positions of the remaining blank lines as an
`empty lines` diagnostic.  Returns the (possibly popped) line list together
with the updated state. -/
def checkEmptyLines (lines : List String) (st : ErrSt) : List String × ErrSt :=
  let lines :=
    match lines.getLast? with
    | some last => if (pyStrip last).isEmpty then lines.dropLast else lines
    | none => lines
  let empties := (lines.enum.filter (fun p => (pyStrip p.2).isEmpty)).map (fun p => p.1 + 1)
  if empties.isEmpty then (lines, st)
  else (lines, addError st "empty lines" ("contains empty lines at: " ++ pyIntListRepr empties))

/-! ## `check_if_commas_in_floats` -/

/-- The per-project body of the `check_if_commas_in_floats` loop: a comma in
the cost yields a `comma in float!` diagnostic and the stored cost is
replaced by `str(cost).split(",")[0]`; a missing `cost` key raises. -/
def commasFixProject (acc : List (String × Dict) × ErrSt) (p : String × Dict) :
    Option (List (String × Dict) × ErrSt) :=
  let (projs, st) := acc
  match dGet? p.2 "cost" with
  | none => none
  | some cost =>
    if pyContains cost ',' then
      let st := addError st "comma in float!"
        ("in project: `" ++ p.1 ++ "`, cost: `" ++ cost ++ "`")
      let newCost := (pySplit cost ',').headD ""
      some (dSet projs p.1 (dSet p.2 "cost" newCost), st)
    else some (projs, st)

/-- The `budget` branch of `check_if_commas_in_floats`: a comma in the
budget yields the `comma in float!` diagnostic with detail `in budget` and
the stored value has its commas replaced by dots; `none` models the
`KeyError` on a file without a `budget` key. -/
def commasBudget (meta : Dict) (st : ErrSt) : Option (Dict × ErrSt) := do
  let budget ← dGet? meta "budget"
  if pyContains budget ',' then
    return (dSet meta "budget" (pyReplace budget ',' '.'),
            addError st "comma in float!" "in budget")
  else
    return (meta, st)

/-- The `max_sum_cost` branch of `check_if_commas_in_floats` (guarded by
the truthiness of `meta.get`, so an absent or empty value is skipped). -/
def commasMaxSumCost (meta : Dict) (st : ErrSt) : Dict × ErrSt :=
  match dGet? meta "max_sum_cost" with
  | some msc =>
    if ¬ msc.isEmpty ∧ pyContains msc ',' then
      (dSet meta "max_sum_cost" (pyReplace msc ',' '.'),
       addError st "comma in float!" "in max_sum_cost")
    else (meta, st)
  | none => (meta, st)

/-- `Checker.check_if_commas_in_floats`: flag a `,` inside `budget`,
`max_sum_cost` or any project cost as `comma in float!`, repairing the
stored value in place (`,` becomes `.` in the META values; a project cost
keeps only the part before the first `,`).  Returns the repaired META and
projects; `none` models an escaping `KeyError`. -/
def checkIfCommasInFloats (meta : Dict) (projects : List (String × Dict)) (st : ErrSt) :
    Option (Dict × List (String × Dict) × ErrSt) := do
  let (meta, st) ← commasBudget meta st
  let (meta, st) := commasMaxSumCost meta st
  let (projects, st) ← projects.foldlM commasFixProject (projects, st)
  return (meta, projects, st)

/-! ## `check_budgets` -/

/-- The body of the first `check_budgets` loop, threading
`(budget_spent, all_projects_cost, state)`. -/
def budgetsScanProject (budgetAvailable : Int) (acc : Int × Int × ErrSt) (p : String × Dict) :
    Option (Int × Int × ErrSt) := do
  let (spent, allCost, st) := acc
  let selectedField := dGet? p.2 "selected"
  let costStr ← dGet? p.2 "cost"
  let projectCost ← pyInt? costStr
  let allCost := allCost + projectCost
  let spent ←
    if truthy selectedField then do
      let s ← pyInt? (selectedField.getD "")
      pure (if s == 1 then spent + projectCost else spent)
    else pure spent
  let st :=
    if projectCost == 0 then
      addError st "project with no cost" ("project: `" ++ p.1 ++ "` has not cost!")
    else if projectCost > budgetAvailable then
      addError st "single project exceeded whole budget"
        ("project `" ++ p.1 ++ "` has exceeded the whole budget! cost: `" ++
         intToString projectCost ++ "` vs budget: `" ++ intToString budgetAvailable ++ "`")
    else st
  return (spent, allCost, st)

/-- The body of the `unused budget` loop of `check_budgets`. -/
def budgetsUnusedProject (budgetRemaining : Int) (st : ErrSt) (p : String × Dict) :
    Option ErrSt := do
  let selectedField := dGet? p.2 "selected"
  if truthy selectedField then do
    let s ← pyInt? (selectedField.getD "")
    if s == 0 then do
      let costStr ← dGet? p.2 "cost"
      let projectCost ← pyInt? costStr
      if projectCost < budgetRemaining then
        return addError st "unused budget"
          ("project: " ++ p.1 ++ " can be funded but it" ++ sglq ++ "s not selected")
      else return st
    else return st
  else return st

/-- `Checker.check_budgets`: flag zero-cost projects, single projects above
the whole budget, selected cost above the budget, the `all projects funded`
case (only when `fully_funded` is not `1`, and only when the budget is
strictly greater than the total cost) and unselected projects that would
still fit the remaining budget.  `none` models an exception (missing key or
unparsable number). -/
def checkBudgets (meta : Dict) (projects : List (String × Dict)) (st : ErrSt) :
    Option ErrSt := do
  let budgetStr ← dGet? meta "budget"
  let bq ← pyDec? (pyReplace budgetStr ',' '.')
  let budgetAvailable : Int := bq.floor
  let (spent, allCost, st) ← projects.foldlM (budgetsScanProject budgetAvailable) (0, 0, st)
  let st :=
    if spent > budgetAvailable then
      addError st "budget exceeded"
        ("Budget: `" ++ intToString budgetAvailable ++ "`, cost of selected projects: " ++
         intToString spent)
    else st
  let fullyFunded ←
    match dGet? meta "fully_funded" with
    | some s =>
      if ¬ s.isEmpty then do
        let f ← pyInt? s
        pure (f == 1)
      else pure false
    | none => pure false
  if fullyFunded then
    return st
  else do
    let st :=
      if budgetAvailable > allCost then
        addError st "all projects funded"
          ("budget: " ++ getStrWithSepFrom budgetAvailable ++ ", cost of all projects: " ++
           getStrWithSepFrom allCost)
      else st
    let budgetRemaining := budgetAvailable - spent
    projects.foldlM (budgetsUnusedProject budgetRemaining) st

/-! ## `check_number_of_votes` / `check_number_of_projects` -/

/-- `Checker.check_number_of_votes`: compare `META.num_votes` with the
number of VOTES rows. -/
def checkNumberOfVotes (meta : Dict) (votes : List (String × Dict)) (st : ErrSt) :
    Option ErrSt := do
  let metaVotes ← dGet? meta "num_votes"
  let n ← pyInt? metaVotes
  if ¬ (n == (votes.length : Int)) then
    return addError st "different number of votes"
      ("votes number in META: `" ++ metaVotes ++
       "` vs counted from file (number of rows in VOTES section): `" ++
       natToString votes.length ++ "`")
  else return st

/-- `Checker.check_number_of_projects`: compare `META.num_projects` with the
number of PROJECTS rows. -/
def checkNumberOfProjects (meta : Dict) (projects : List (String × Dict)) (st : ErrSt) :
    Option ErrSt := do
  let metaProjects ← dGet? meta "num_projects"
  let n ← pyInt? metaProjects
  if ¬ (n == (projects.length : Int)) then
    return addError st "different number of projects"
      ("projects number in meta: `" ++ metaProjects ++
       "` vs counted from file (number of rows in PROJECTS section): `" ++
       natToString projects.length ++ "`")
  else return st

/-! ## `check_vote_length` -/

/-- The per-voter body of `check_vote_length`.  Over-long ballots are
reported; for under-short ballots the source builds the
`vote length too short` type and message but never calls `add_error`, so
nothing is recorded. -/
def voteLengthVoter (maxLength minLength : Option String) (st : ErrSt) (v : String × Dict) :
    Option ErrSt := do
  let voteStr ← dGet? v.2 "vote"
  let voterVotes := (pySplit voteStr ',').length
  let st ←
    if truthy maxLength then do
      let ml ← pyInt? (maxLength.getD "")
      if (voterVotes : Int) > ml then
        pure (addError st "vote length exceeded"
          ("Voter ID: `" ++ v.1 ++ "`, max vote length: `" ++ maxLength.getD "" ++
           "`, number of voter votes: `" ++ natToString voterVotes ++ "`"))
      else pure st
    else pure st
  if truthy minLength then do
    let ml ← pyInt? (minLength.getD "")
    if (voterVotes : Int) < ml then
      let _type := "vote length too short"
      let _details :=
        ("Voter ID: `" ++ v.1 ++ "`, min vote length: `" ++ minLength.getD "" ++
         "`, number of voter votes: `" ++ natToString voterVotes ++ "`")
      -- the source assigns `type` and `details` here without an `add_error` call
      return st
    else return st
  else return st

/-- `Checker.check_vote_length`: bound every ballot length by
`max_length`/`min_length` (with the `_unit`/`_district` fallbacks chained
by Python `or`). -/
def checkVoteLength (meta : Dict) (votes : List (String × Dict)) (st : ErrSt) :
    Option ErrSt := do
  let maxLength := pyOr (dGet? meta "max_length")
    (pyOr (dGet? meta "max_length_unit") (dGet? meta "max_length_district"))
  let minLength := pyOr (dGet? meta "min_length")
    (pyOr (dGet? meta "min_length_unit") (dGet? meta "min_length_district"))
  if truthy maxLength ∨ truthy minLength then
    votes.foldlM (voteLengthVoter maxLength minLength) st
  else return st

/-! ## Vote / score counting (`pabulib_helpers.utilities`) -/

/-- Modelled from the spec: `utilities.count_votes_per_project` (the helpers
package is not under `src/`): for each voter, split `vote` on `,` and
increment the counter of each referenced project id; the result keeps
first-reference insertion order.  `none` models a ballot without a `vote`
key. -/
def countVotesPerProject (votes : List (String × Dict)) :
    Option (List (String × Nat)) :=
  votes.foldlM
    (fun acc v => do
      let voteStr ← dGet? v.2 "vote"
      pure ((pySplit voteStr ',').foldl
        (fun acc pid => dSet acc pid (dGetD acc pid 0 + 1)) acc))
    []

/-- Modelled from the spec: `utilities.count_points_per_project` (the
helpers package is not under `src/`): split both `vote` and `points` on
`,`, zip them and sum the points of each referenced project id (`zip`
truncates at the shorter list; the mismatch diagnostic the spec mentions is
emitted elsewhere and no claim depends on it).  `none` models a missing key
or an unparsable point. -/
def countPointsPerProject (votes : List (String × Dict)) :
    Option (List (String × Int)) :=
  votes.foldlM
    (fun acc v => do
      let voteStr ← dGet? v.2 "vote"
      let pointsStr ← dGet? v.2 "points"
      ((pySplit voteStr ',').zip (pySplit pointsStr ',')).foldlM
        (fun acc pp => do
          let pts ← pyInt? pp.2
          pure (dSet acc pp.1 (dGetD acc pp.1 0 + pts))) acc)
    []

/-! ## `check_if_correct_votes_number` -/

/-- `int(project_info.get("votes", 0) or 0)`: a missing or empty `votes`
column counts as `0`; anything else is parsed by `int` (raising on
garbage). -/
def votesFieldInt (pinfo : Dict) : Option Int :=
  match dGet? pinfo "votes" with
  | none => some 0
  | some s => if s.isEmpty then some 0 else pyInt? s

/-- The f-string rendering of `project_info.get("votes", 0)`. -/
def votesFieldRepr (pinfo : Dict) : String :=
  match dGet? pinfo "votes" with
  | none => "0"
  | some s => s

/-- The body of the first `check_if_correct_votes_number` loop, threading
the `defaultdict` of counted votes (reads insert missing keys with 0). -/
def votesNumberProject (acc : List (String × Nat) × ErrSt) (p : String × Dict) :
    Option (List (String × Nat) × ErrSt) := do
  let (counted, st) := acc
  let vf ← votesFieldInt p.2
  let st :=
    if vf == 0 then
      addError st "project with no votes"
        ("It" ++ sglq ++
         "s possible, that this project was not approved for voting! Project: " ++ p.1)
    else st
  let (countedVotes, counted) := ddRead counted p.1
  let st :=
    if ¬ (vf == (countedVotes : Int)) then
      addError st "different values in votes"
        ("project: `" ++ p.1 ++ "` file votes (in PROJECTS section): `" ++
         votesFieldRepr p.2 ++ "` vs counted: " ++ natToString countedVotes)
    else st
  return (counted, st)

/-- `Checker.check_if_correct_votes_number`: reconcile the per-project
`votes` column with the tally computed from the ballots.  A referenced
project that is missing from PROJECTS (or lacks a `votes` column) is
reported as a second `different values in votes` diagnostic — the source
has no `vote for non-existent project` diagnostic. -/
def checkIfCorrectVotesNumber (projects : List (String × Dict))
    (votes : List (String × Dict)) (st : ErrSt) : Option ErrSt := do
  let counted0 ← countVotesPerProject votes
  let (counted, st) ← projects.foldlM votesNumberProject (counted0, st)
  let st := counted.foldl
    (fun st pv =>
      let orphan :=
        match dGet? projects pv.1 with
        | none => true
        | some pdata => pdata.isEmpty ∨ (dGet? pdata "votes").isNone
      if orphan then
        addError st "different values in votes"
          ("project: `" ++ pv.1 ++ "` file votes (in PROJECTS section): `0` vs counted: " ++
           natToString pv.2)
      else st)
    st
  return st

/-! ## `check_if_correct_scores_number` -/

/-- The f-string rendering of `(project_info.get("score", 0),)` — the
source wraps the value in a one-element tuple, so the message shows a tuple
repr. -/
def scoreFieldTupleRepr (pinfo : Dict) : String :=
  match dGet? pinfo "score" with
  | none => "(0,)"
  | some s => "(" ++ sglq ++ s ++ sglq ++ ",)"

/-- `int(project_info.get("score", 0) or 0)`. -/
def scoreFieldInt (pinfo : Dict) : Option Int :=
  match dGet? pinfo "score" with
  | none => some 0
  | some s => if s.isEmpty then some 0 else pyInt? s

/-- `Checker.check_if_correct_scores_number`: reconcile the per-project
`score` column with the tally computed from the ballots.  The second loop
of the source builds a message for counted projects missing from PROJECTS
but never calls `add_error`, so it records nothing. -/
def checkIfCorrectScoresNumber (projects : List (String × Dict))
    (votes : List (String × Dict)) (st : ErrSt) : Option ErrSt := do
  let countedScores ← countPointsPerProject votes
  let st ← projects.foldlM
    (fun st p => do
      let countedVotes : Int := dGetD countedScores p.1 0
      let sf ← scoreFieldInt p.2
      if ¬ (sf == countedVotes) then
        pure (addError st "different values in scores"
          ("project: `" ++ p.1 ++ "` file scores (in PROJECTS section): `" ++
           scoreFieldTupleRepr p.2 ++ "` vs counted: " ++ intToString countedVotes))
      else pure st)
    st
  return st

/-! ## `check_votes_and_scores` -/

/-- `Checker.check_votes_and_scores`: require at least one of the
`votes`/`score` columns and reconcile whichever is present. -/
def checkVotesAndScores (projects : List (String × Dict)) (votes : List (String × Dict))
    (votesInProjects scoresInProjects : Bool) (st : ErrSt) : Option ErrSt := do
  let st :=
    if ¬ (votesInProjects || scoresInProjects) then
      addError st "No votes or score counted in PROJECTS section"
        "There should be at least one field"
    else st
  let st ← if votesInProjects then checkIfCorrectVotesNumber projects votes st else pure st
  if scoresInProjects then checkIfCorrectScoresNumber projects votes st else pure st

/-! ## Sorting projects by results (`utilities.sort_projects_by_results`) -/

/-- Modelled from the spec: the result value of a project for ordering —
the `score` column when present, else `votes`, read as a number
(defaulting to 0). -/
def resultValue (d : Dict) : Dec :=
  match dGet? d "score" with
  | some s => (pyDec? s).getD ⟨0, 0⟩
  | none => (pyDec? ((dGet? d "votes").getD "")).getD ⟨0, 0⟩

/-- Character-list lexicographic order (Python `<` on strings). -/
def charListLeb : List Char → List Char → Bool
  | [], _ => true
  | _ :: _, [] => false
  | a :: as, b :: bs =>
    if a.toNat < b.toNat then true
    else if a.toNat == b.toNat then charListLeb as bs
    else false

def strLeb (a b : String) : Bool := charListLeb a.data b.data

/-- Modelled from the spec: the comparison used by
`utilities.sort_projects_by_results` — result value descending, project id
ascending as tiebreaker. -/
def projBefore (p q : String × Dict) : Bool :=
  if Dec.ltb (resultValue q.2) (resultValue p.2) then true
  else if Dec.eqb (resultValue p.2) (resultValue q.2) then strLeb p.1 q.1
  else false

def insertSortedBy {α : Type} (le : α → α → Bool) (x : α) : List α → List α
  | [] => [x]
  | y :: ys => if le x y then x :: y :: ys else y :: insertSortedBy le x ys

/-- Modelled from the spec: `utilities.sort_projects_by_results` (the
helpers package is not under `src/`): projects ordered by result value
descending, then id ascending. -/
def sortProjectsByResults (projects : List (String × Dict)) : List (String × Dict) :=
  projects.foldr (insertSortedBy projBefore) []

/-! ## `verify_greedy_selected` / `verify_poznan_selected` / `verify_selected` -/

/-- Modelled from the spec: `utilities.make_cost_printable` (only feeds the
`row` values, which no emitted message ever reads). -/
def makeCostPrintable (c : Dec) : String :=
  intToString c.m

/-- The per-project body of the `verify_greedy_selected` loop, threading
`(selected ids, greedy winner ids, remaining budget)`.  The `row` lookups
are kept because they can raise `KeyError`. -/
def greedyScanProject (results : String)
    (acc : List String × List String × Dec) (p : String × Dict) :
    Option (List String × List String × Dec) := do
  let (sel, win, b) := acc
  let costStr ← dGet? p.2 "cost"
  let projectCost ← pyDec? costStr
  let _rowResult ← dGet? p.2 results
  let _rowCost := makeCostPrintable projectCost
  let selectedStr ← dGet? p.2 "selected"
  let s ← pyInt? selectedStr
  let sel := if s == 1 then sel ++ [p.1] else sel
  let (win, b) :=
    if Dec.leb projectCost b then (win ++ [p.1], Dec.sub b projectCost)
    else (win, b)
  return (sel, win, b)

/-- `Checker.verify_greedy_selected`: replay the skip-greedy rule over the
(already sorted) projects and compare the winners with the `selected=1`
set.  The source's guard reads `if should_be_selected or
should_be_selected:`, so only a missing winner — never a wrongly selected
extra project alone — triggers the `greedy rule not followed`
diagnostic. -/
def verifyGreedySelected (budget : Dec) (projects : List (String × Dict))
    (results : String) (st : ErrSt) : Option ErrSt := do
  let (sel, win, _) ← projects.foldlM (greedyScanProject results) ([], [], budget)
  let shouldBeSelected := win.filter (fun i => ¬ sel.contains i)
  let shouldntBeSelected := sel.filter (fun i => ¬ win.contains i)
  if ¬ shouldBeSelected.isEmpty ∨ ¬ shouldBeSelected.isEmpty then
    return addError st "greedy rule not followed"
      ("Projects not selected but should be: " ++ pySetOrEmpty shouldBeSelected ++
       ", and selected but shouldn" ++ sglq ++ "t: " ++ pySetOrEmpty shouldntBeSelected)
  else return st

/-- The per-project body of the `verify_poznan_selected` loop, threading
`(file-selected ids, rule-selected ids, still-collecting flag, remaining
budget)`.  A project that no longer fits is still admitted when it costs at
most 80% of the remaining budget, after which collection stops. -/
def poznanScanProject (results : String)
    (acc : List String × List String × Bool × Dec) (p : String × Dict) :
    Option (List String × List String × Bool × Dec) := do
  let (fileSel, ruleSel, collecting, b) := acc
  let costStr ← dGet? p.2 "cost"
  let projectCost ← pyDec? costStr
  let _rowResult ← dGet? p.2 results
  let _rowCost := makeCostPrintable projectCost
  let selectedStr ← dGet? p.2 "selected"
  let s ← pyInt? selectedStr
  let fileSel := if s == 1 ∨ s == 2 then fileSel ++ [p.1] else fileSel
  if collecting then
    if Dec.leb projectCost b then
      return (fileSel, ruleSel ++ [p.1], true, Dec.sub b projectCost)
    else if Dec.leb (Dec.mul projectCost ⟨8, 1⟩) b then
      return (fileSel, ruleSel ++ [p.1], false, b)
    else
      return (fileSel, ruleSel, false, b)
  else
    return (fileSel, ruleSel, collecting, b)

/-- `Checker.verify_poznan_selected`: replay the Poznań 80% rule and report
both directions of divergence as `poznan rule not followed`. -/
def verifyPoznanSelected (budget : Dec) (projects : List (String × Dict))
    (results : String) (st : ErrSt) : Option ErrSt := do
  let (fileSel, ruleSel, _, _) ←
    projects.foldlM (poznanScanProject results) ([], [], true, budget)
  let shouldBeSelected := ruleSel.filter (fun i => ¬ fileSel.contains i)
  let st :=
    if ¬ shouldBeSelected.isEmpty then
      addError st "poznan rule not followed"
        ("Projects not selected but should be: " ++ pySetRepr shouldBeSelected)
    else st
  let shouldntBeSelected := fileSel.filter (fun i => ¬ ruleSel.contains i)
  let st :=
    if ¬ shouldntBeSelected.isEmpty then
      addError st "poznan rule not followed"
        ("Projects selected but should not: " ++ pySetRepr shouldntBeSelected)
    else st
  return st

/-- `Checker.verify_selected`: when the projects carry a `selected` column,
sort them by results and dispatch on `unit`/`rule` — the Poznań rule for
`unit == "Poznań"`, the greedy replay for `rule == "greedy"`, and only a
console message (no diagnostic) otherwise.  `none` models the
`StopIteration` on an empty projects map and the `KeyError` on missing META
keys. -/
def verifySelected (meta : Dict) (projects : List (String × Dict))
    (scoresInProjects : Bool) (st : ErrSt) : Option ErrSt := do
  let first ← (projects.head?).map (fun p => p.2)
  let selectedField := dGet? first "selected"
  if truthy selectedField then do
    let sorted := sortProjectsByResults projects
    let results := if scoresInProjects then "score" else "votes"
    let budgetStr ← dGet? meta "budget"
    let budget ← pyDec? (pyReplace budgetStr ',' '.')
    let rule ← dGet? meta "rule"
    let unit ← dGet? meta "unit"
    if unit == "Poznań" then
      verifyPoznanSelected budget sorted results st
    else if rule == "greedy" then
      verifyGreedySelected budget sorted results st
    else
      return st
  else return st

/-! ## Schema registry (`pabulib_helpers.fields`, modelled from the spec) -/

inductive PyType where
  | str
  | int
  | float
deriving DecidableEq

/-- Modelled from the spec: one schema entry — datatype, obligatory and
nullable flags and an optional per-field predicate returning `none` on
success or a failure message.  (Predicates are applied to the raw string
value; the cross-field `cumulative`/`max_sum_points` rule lives outside the
per-field registry and no claim depends on it.) -/
structure FieldRule where
  datatype : PyType
  obligatory : Bool := false
  nullable : Bool := false
  checker : Option (String → Option String) := none

def castOk (t : PyType) (v : String) : Bool :=
  match t with
  | .str => true
  | .int => (pyInt? v).isSome
  | .float => (pyDec? v).isSome

def charsHavePre : List Char → List Char → Bool
  | [], _ => true
  | _ :: _, [] => false
  | a :: as, b :: bs => a == b && charsHavePre as bs

/-- `str.startswith`. -/
def strStartsWith (s pre : String) : Bool := charsHavePre pre.data s.data

def inSetChecker (allowed : List String) : String → Option String :=
  fun v => if allowed.contains v then none else some ("invalid value: " ++ v)

/-- Modelled from the spec: `date_begin`/`date_end` are `YYYY` or
`DD.MM.YYYY`. -/
def isDateValue (s : String) : Bool :=
  (s.data.length == 4 && allDigits s.data) ||
    (match splitChar '.' s.data with
     | [d, m, y] =>
       d.length == 2 && m.length == 2 && y.length == 4 &&
         allDigits d && allDigits m && allDigits y
     | _ => false)

def dateChecker : String → Option String :=
  fun v => if isDateValue v then none else some ("invalid date value: " ++ v)

/-- Modelled from the spec: `age` is a non-negative integer or a bucket
`A-B` with `A ≤ B`. -/
def isAgeValue (s : String) : Bool :=
  (s.data ≠ [] && allDigits s.data) ||
    (match splitChar '-' s.data with
     | [a, b] =>
       a ≠ [] && b ≠ [] && allDigits a && allDigits b &&
         digitsToNat a ≤ digitsToNat b
     | _ => false)

def ageChecker : String → Option String :=
  fun v => if isAgeValue v then none else some ("invalid age value: " ++ v)

def commentChecker : String → Option String :=
  fun v => if strStartsWith v "#1: " then none else some ("invalid comment value: " ++ v)

def fullyFundedChecker : String → Option String :=
  fun v => if v == "1" then none else some ("invalid fully_funded value: " ++ v)

/-- Modelled from the spec: `fields.META_FIELDS_ORDER` — the ordered META
schema (obligatory fields first, in canonical order, then the optional
ones). -/
def metaFieldsOrder : List (String × FieldRule) :=
  [("description", ⟨.str, true, false, none⟩),
   ("country", ⟨.str, true, false, none⟩),
   ("unit", ⟨.str, true, false, none⟩),
   ("instance", ⟨.str, true, false, none⟩),
   ("num_projects", ⟨.int, true, false, none⟩),
   ("num_votes", ⟨.int, true, false, none⟩),
   ("budget", ⟨.float, true, false, none⟩),
   ("vote_type", ⟨.str, true, false,
     some (inSetChecker ["ordinal", "approval", "cumulative", "choose-1"])⟩),
   ("rule", ⟨.str, true, false, none⟩),
   ("date_begin", ⟨.str, true, false, some dateChecker⟩),
   ("date_end", ⟨.str, true, false, some dateChecker⟩),
   ("fully_funded", ⟨.int, false, true, some fullyFundedChecker⟩),
   ("max_length", ⟨.int, false, true, none⟩),
   ("min_length", ⟨.int, false, true, none⟩),
   ("max_length_unit", ⟨.int, false, true, none⟩),
   ("min_length_unit", ⟨.int, false, true, none⟩),
   ("max_length_district", ⟨.int, false, true, none⟩),
   ("min_length_district", ⟨.int, false, true, none⟩),
   ("max_sum_cost", ⟨.float, false, true, none⟩),
   ("max_sum_points", ⟨.int, false, true, none⟩),
   ("min_project_score_threshold", ⟨.int, false, true, none⟩),
   ("comment", ⟨.str, false, true, some commentChecker⟩),
   ("language", ⟨.str, false, true, none⟩),
   ("currency", ⟨.str, false, true, none⟩),
   ("edition", ⟨.str, false, true, none⟩),
   ("subunit", ⟨.str, false, true, none⟩)]

/-- Modelled from the spec: `fields.PROJECTS_FIELDS_ORDER`. -/
def projectsFieldsOrder : List (String × FieldRule) :=
  [("project_id", ⟨.str, true, false, none⟩),
   ("cost", ⟨.float, true, false, none⟩),
   ("name", ⟨.str, true, false, none⟩),
   ("category", ⟨.str, false, true, none⟩),
   ("target", ⟨.str, false, true, none⟩),
   ("selected", ⟨.int, false, true, none⟩),
   ("votes", ⟨.int, false, true, none⟩),
   ("score", ⟨.float, false, true, none⟩),
   ("longitude", ⟨.float, false, true, none⟩),
   ("latitude", ⟨.float, false, true, none⟩)]

/-- Modelled from the spec: `fields.VOTES_FIELDS_ORDER`. -/
def votesFieldsOrder : List (String × FieldRule) :=
  [("voter_id", ⟨.str, true, false, none⟩),
   ("vote", ⟨.str, true, false, none⟩),
   ("age", ⟨.str, false, true, some ageChecker⟩),
   ("sex", ⟨.str, false, true, some (inSetChecker ["M", "F", "O"])⟩),
   ("voting_method", ⟨.str, false, true, none⟩),
   ("points", ⟨.str, false, true, none⟩)]

/-! ## `check_fields` -/

/-- Subsequence test: the two-pointer order walk of `validate_fields`
reports a wrong order exactly when the filtered data keys are not a
subsequence of the canonical key order. -/
def isSubseqOf : List String → List String → Bool
  | [], _ => true
  | _ :: _, [] => false
  | a :: as, b :: bs => if a == b then isSubseqOf as bs else isSubseqOf (a :: as) bs

/-- The per-field validation loop of `validate_fields`: nullability, datatype
cast, then the custom predicate.  A failed cast is modelled as an exception:
the source's `except` branch evaluates `type(value).__name__` after `type`
was rebound to a string, which raises (`TypeError`/`UnboundLocalError`)
out of the method. -/
def validateFieldValue (fieldsOrder : List (String × FieldRule)) (fieldName : String)
    (st : ErrSt) (fv : String × String) : Option ErrSt := do
  match dGet? fieldsOrder fv.1 with
  | none => return st
  | some rules =>
    if fv.2.isEmpty then
      if ¬ rules.nullable then
        return addError st ("invalid " ++ fieldName ++ " field value")
          (fieldName ++ " field " ++ sglq ++ fv.1 ++ sglq ++ " cannot be None.")
      else return st
    else if ¬ castOk rules.datatype fv.2 then
      none
    else
      match rules.checker with
      | some ch =>
        match ch fv.2 with
        | some msg =>
          return addError st ("invalid " ++ fieldName ++ " field value") msg
        | none => return st
      | none => return st

/-- The inner `validate_fields` of `Checker.check_fields`: missing
obligatory fields, unknown fields, field order, then per-field values. -/
def validateFields (data : Dict) (fieldsOrder : List (String × FieldRule))
    (fieldName : String) (st : ErrSt) : Option ErrSt := do
  let missingFields :=
    (fieldsOrder.filter (fun fr => fr.2.obligatory ∧ (dGet? data fr.1).isNone)).map
      (fun fr => fr.1)
  let st :=
    if ¬ missingFields.isEmpty then
      addError st ("missing " ++ fieldName ++ " obligatory field")
        ("missing fields: " ++ pyStrListRepr missingFields)
    else st
  let notKnownFields :=
    (data.map (fun p => p.1)).filter (fun k => (dGet? fieldsOrder k).isNone)
  let st :=
    if ¬ notKnownFields.isEmpty then
      addError st ("not known " ++ fieldName ++ " fields")
        (fieldName ++ " contains not known fields: " ++ pyStrListRepr notKnownFields ++ ".")
    else st
  let fieldsOrderKeys := fieldsOrder.map (fun p => p.1)
  let dataOrder := (data.map (fun p => p.1)).filter (fun k => fieldsOrderKeys.contains k)
  let st :=
    if ¬ isSubseqOf dataOrder fieldsOrderKeys then
      addError st ("wrong " ++ fieldName ++ " fields order")
        (fieldName ++ " wrong fields order: " ++ pyStrListRepr dataOrder ++ ".")
    else st
  data.foldlM (validateFieldValue fieldsOrder fieldName) st

/-! ## `validate_date_range` -/

/-- The inner `parse_date` of `validate_date_range`: `YYYY` becomes
`YYYY-01-01`, `DD.MM.YYYY` becomes `YYYY-MM-DD`, anything else `None`. -/
def parseDate (s : String) : Option String :=
  if s.data.length == 4 ∧ allDigits s.data then some (s ++ "-01-01")
  else
    match splitChar '.' s.data with
    | [d, m, y] =>
      if d.length == 2 ∧ m.length == 2 ∧ y.length == 4 ∧
          allDigits d ∧ allDigits m ∧ allDigits y then
        some (String.mk y ++ "-" ++ String.mk m ++ "-" ++ String.mk d)
      else none
    | _ => none

/-- `Checker.validate_date_range`: normalize both dates and flag
`date range missmatch` when the end precedes the begin.  `none` models the
`KeyError` on a META without the date keys. -/
def validateDateRange (meta : Dict) (st : ErrSt) : Option ErrSt := do
  let dateBegin ← dGet? meta "date_begin"
  let dateEnd ← dGet? meta "date_end"
  match parseDate dateBegin, parseDate dateEnd with
  | some b, some e =>
    if ¬ strLeb b e then
      return addError st "date range missmatch"
        ("date end (" ++ e ++ ") earlier than start (" ++ b ++ ")!")
    else return st
  | _, _ => return st

/-- `Checker.check_fields`: validate META, the date range, the first
project record and the first vote record (with the parser-consumed
`voter_id` column reinstated as a placeholder). -/
def checkFields (meta : Dict) (projects : List (String × Dict))
    (votes : List (String × Dict)) (st : ErrSt) : Option ErrSt := do
  let st ← validateFields meta metaFieldsOrder "meta" st
  let st ← validateDateRange meta st
  let firstProject := ((projects.head?).map (fun p => p.2)).getD []
  let st ← validateFields firstProject projectsFieldsOrder "projects" st
  let firstVote := ((votes.head?).map (fun p => p.2)).getD []
  let firstVote :=
    ("voter_id", (dGet? firstVote "voter_id").getD "placeholder") ::
      firstVote.filter (fun p => ¬ (p.1 == "voter_id"))
  validateFields firstVote votesFieldsOrder "votes" st

/-! ## `run_checks` and `process_files` -/

/-- `Checker.run_checks`: the fixed sequence of section checks, threading
the META/projects repairs of the comma check into the later ones.  `none`
models an uncaught exception escaping from any check. -/
def runChecks (meta : Dict) (projects : List (String × Dict))
    (votes : List (String × Dict)) (votesInProjects scoresInProjects : Bool)
    (st : ErrSt) : Option ErrSt := do
  let (meta, projects, st) ← checkIfCommasInFloats meta projects st
  let st ← checkBudgets meta projects st
  let st ← checkNumberOfVotes meta votes st
  let st ← checkNumberOfProjects meta projects st
  let st ← checkVoteLength meta votes st
  let st ← checkVotesAndScores projects votes votesInProjects scoresInProjects st
  let st ← verifySelected meta projects scoresInProjects st
  checkFields meta projects votes st

/-- A per-file entry of `self.results`: the literal string
`"File looks correct!"` or the non-empty `file_results` record. -/
inductive FileEntry where
  | looksCorrect
  | problems (r : List (String × List (Nat × String)))
deriving DecidableEq, Repr

/-- The full `Checker` object: the metadata counters and per-file entries
of `self.results`, plus the diagnostic state (`file_results`,
`error_counters`, `summary`). -/
structure Checker where
  processed : Nat := 0
  valid : Nat := 0
  invalid : Nat := 0
  entries : List (Nat × FileEntry) := []
  errSt : ErrSt := {}
deriving DecidableEq, Repr

/-- The state of a `Checker` right after `__post_init__`. -/
def initChecker : Checker := {}

/-- The start of each `process_files` iteration:
`self.file_results = {}` — the per-type `error_counters` are *not*
reset. -/
def startFile (c : Checker) : Checker :=
  { c with errSt := { c.errSt with fileResults := [] } }

/-- One iteration of `Checker.process_files` for a raw-content input with
1-based `identifier`: reset `file_results`, run `check_empty_lines` on the
split lines, run `run_checks` on the parsed sections, then record the file
and bump the metadata counters.  `none` models an exception escaping the
iteration — the source has no handler around it. -/
def processOneFile (c : Checker) (identifier : Nat) (f : PBFile) : Option Checker :=
  let c := startFile c
  -- the popped line list returned by `check_empty_lines` has no further use
  let est := (checkEmptyLines f.lines c.errSt).2
  match runChecks f.meta f.projects f.votes f.votesInProjects f.scoresInProjects est with
  | none => none
  | some est2 =>
    if est2.fileResults.isEmpty then
      some { c with errSt := est2,
                    entries := c.entries ++ [(identifier, .looksCorrect)],
                    valid := c.valid + 1,
                    processed := c.processed + 1 }
    else
      some { c with errSt := est2,
                    entries := c.entries ++ [(identifier, .problems est2.fileResults)],
                    invalid := c.invalid + 1,
                    processed := c.processed + 1 }

/-- The `process_files` loop from a given checker state and enumerate
index. -/
def processFilesFrom (c : Checker) (identifier : Nat) : List PBFile → Option Checker
  | [] => some c
  | f :: rest =>
    match processOneFile c identifier f with
    | none => none
    | some c2 => processFilesFrom c2 (identifier + 1) rest

/-- `Checker.process_files` on a fresh checker over raw-content inputs
(identifiers are the 1-based enumeration indices). -/
def processFiles (files : List PBFile) : Option Checker :=
  processFilesFrom initChecker 1 files

/-! ## Spec-side definitions for the greedy claim (C1) -/

/-- Following the spec's words (§4.7): the greedy replay — walk the
projects in result order, admit a project iff its cost fits the remaining
budget, decrement.  Used only to compare against the source's
`verify_greedy_selected`. -/
def specGreedyReplay (budget : Dec) (projects : List (String × Dict)) : List String :=
  (projects.foldl
    (fun (acc : List String × Dec) p =>
      let cost := (pyDec? ((dGet? p.2 "cost").getD "")).getD ⟨0, 0⟩
      if Dec.leb cost acc.2 then (acc.1 ++ [p.1], Dec.sub acc.2 cost) else acc)
    ([], budget)).1

/-- Following the spec's words: the set `{p : selected(p) = 1}`. -/
def specSelectedSet (projects : List (String × Dict)) : List String :=
  (projects.filter (fun p => (dGet? p.2 "selected").getD "" == "1")).map (fun p => p.1)

/-! ## Concrete inputs used by the claims -/

/-- A fully valid PB file (META/PROJECTS/VOTES all consistent, greedy
selection correct). -/
def goodFile : PBFile :=
  { lines := ["META", "description;desc", "PROJECTS", "VOTES"]
    meta := [("description", "desc"), ("country", "Poland"), ("unit", "TestUnit"),
             ("instance", "TestInstance"), ("num_projects", "2"), ("num_votes", "3"),
             ("budget", "500"), ("vote_type", "approval"), ("rule", "greedy"),
             ("date_begin", "01.01.2024"), ("date_end", "31.01.2024")]
    projects := [("1", [("project_id", "1"), ("cost", "500"), ("name", "Project1"),
                        ("selected", "1"), ("votes", "2")]),
                 ("2", [("project_id", "2"), ("cost", "300"), ("name", "Project2"),
                        ("selected", "0"), ("votes", "2")])]
    votes := [("voter1", [("vote", "1,2"), ("sex", "M")]),
              ("voter2", [("vote", "1"), ("sex", "F")]),
              ("voter3", [("vote", "2"), ("sex", "F")])]
    votesInProjects := true
    scoresInProjects := false }

/-- `goodFile` with `num_votes` mis-declared as 5: its only diagnostic is
one `different number of votes`. -/
def badVotesFile : PBFile :=
  { goodFile with meta := dSet goodFile.meta "num_votes" "5" }

/-- `goodFile` with an unparsable budget: `float("abc")` raises inside
`check_budgets`. -/
def badBudgetFile : PBFile :=
  { goodFile with meta := dSet goodFile.meta "budget" "abc" }

/-- The checker state after processing exactly `goodFile`. -/
def goodOutChecker : Checker :=
  { processed := 1, valid := 1, invalid := 0, entries := [(1, .looksCorrect)], errSt := {} }

/-- META for the greedy counterexample (C1). -/
def greedyMeta : Dict := [("budget", "300"), ("rule", "greedy"), ("unit", "TestUnit")]

/-- Projects for the greedy counterexample: the replay admits only project
1 (cost 300 exhausts the budget), yet projects 1 and 2 are declared
selected. -/
def greedyProjects : List (String × Dict) :=
  [("1", [("cost", "300"), ("votes", "3"), ("selected", "1")]),
   ("2", [("cost", "400"), ("votes", "2"), ("selected", "1")]),
   ("3", [("cost", "200"), ("votes", "1"), ("selected", "0")])]

/-! ## Dictionary lemmas -/

theorem dGet?_dSet_self {α : Type} (d : List (String × α)) (k : String) (v : α) :
    dGet? (dSet d k v) k = some v := by
  induction d with
  | nil => simp [dGet?, dSet]
  | cons p rest ih =>
    by_cases h : p.1 == k
    · simp [dSet, h, dGet?]
    · simp [dSet, h, dGet?, ih]

theorem dGet?_dSet_ne {α : Type} (d : List (String × α)) (k k2 : String) (v : α)
    (h : ¬ (k == k2)) : dGet? (dSet d k v) k2 = dGet? d k2 := by
  induction d with
  | nil => simp [dGet?, dSet, h]
  | cons p rest ih =>
    by_cases hp : p.1 == k
    · have : (p.1 == k2) = false := by
        simp only [beq_iff_eq] at hp ⊢
        subst hp
        simpa using h
      simp [dSet, hp, dGet?, this, h]
    · simp [dSet, hp, dGet?, ih]

theorem dGet?_append_some {α : Type} (a b : List (String × α)) (k : String) (v : α)
    (h : dGet? a k = some v) : dGet? (a ++ b) k = some v := by
  induction a with
  | nil => simp [dGet?] at h
  | cons p rest ih =>
    by_cases hp : p.1 == k
    · simp [dGet?, hp] at h ⊢
      exact h
    · simp [dGet?, hp] at h ⊢
      exact ih h

theorem dGet?_append_none {α : Type} (a b : List (String × α)) (k : String)
    (h : dGet? a k = none) : dGet? (a ++ b) k = dGet? b k := by
  induction a with
  | nil => simp [dGet?]
  | cons p rest ih =>
    by_cases hp : p.1 == k
    · simp [dGet?, hp] at h
    · simp [dGet?, hp] at h ⊢
      exact ih h

/-! ## `add_error` lemmas -/

theorem addError_errorCounters (st : ErrSt) (t d : String) :
    (addError st t d).errorCounters =
      dSet st.errorCounters t (dGetD st.errorCounters t 1 + 1) := rfl

theorem addError_fileResults_self (st : ErrSt) (t d : String) :
    dGet? (addError st t d).fileResults t =
      some (dGetD st.fileResults t [] ++ [(dGetD st.errorCounters t 1, d)]) := by
  unfold addError
  cases h : dGet? st.fileResults t with
  | none =>
    simp only [h]
    rw [dGet?_append_none st.fileResults [(t, [(dGetD st.errorCounters t 1, d)])] t h]
    simp [dGet?, dGetD, h]
  | some m =>
    simp only [h]
    rw [dGet?_dSet_self st.fileResults t (m ++ [(dGetD st.errorCounters t 1, d)])]
    simp [dGetD, h]

/-- `add_error` appends to (or creates) a per-type list, so the head of any
type's diagnostic list is preserved. -/
theorem addError_preserves_head (st : ErrSt) (t d t2 : String) (x : Nat × String)
    (h : (dGetD st.fileResults t2 []).head? = some x) :
    (dGetD (addError st t d).fileResults t2 []).head? = some x := by
  have hne : dGet? st.fileResults t2 ≠ none := by
    intro hn
    simp [dGetD, hn] at h
  cases hsome : dGet? st.fileResults t2 with
  | none => exact absurd hsome hne
  | some l =>
    have hl : l.head? = some x := by simpa [dGetD, hsome] using h
    by_cases ht : t == t2
    · have ht' : t = t2 := by simpa [beq_iff_eq] using ht
      subst ht'
      have := addError_fileResults_self st t d
      have hl2 : l ≠ [] := by
        intro hn
        subst hn
        simp at hl
      simp [dGetD, this, hsome]
      cases l with
      | nil => simp at hl
      | cons y ys => simpa using hl
    · unfold addError
      cases hft : dGet? st.fileResults t with
      | none =>
        simp only [hft]
        rw [dGetD,
          dGet?_append_some st.fileResults [(t, [(dGetD st.errorCounters t 1, d)])] t2 l hsome]
        simpa using hl
      | some m =>
        simp only [hft]
        rw [dGetD,
          dGet?_dSet_ne st.fileResults t t2 (m ++ [(dGetD st.errorCounters t 1, d)]) ht, hsome]
        simpa using hl

/-! ## Comma-check stage lemmas -/

theorem commasLoop_preserves_head (ps : List (String × Dict)) :
    ∀ (acc : List (String × Dict) × ErrSt) (r : List (String × Dict) × ErrSt)
      (x : Nat × String),
      (dGetD acc.2.fileResults "comma in float!" []).head? = some x →
      List.foldlM commasFixProject acc ps = some r →
      (dGetD r.2.fileResults "comma in float!" []).head? = some x := by
  induction ps with
  | nil =>
    intro acc r x hx h
    have h' : some acc = some r := h
    cases h'
    exact hx
  | cons p rest ih =>
    intro acc r x hx h
    rw [List.foldlM_cons] at h
    cases hstep : commasFixProject acc p with
    | none => simp [hstep] at h
    | some acc2 =>
      rw [hstep] at h
      have h2 : List.foldlM commasFixProject acc2 rest = some r := h
      apply ih acc2 r x _ h2
      unfold commasFixProject at hstep
      cases hc : dGet? p.2 "cost" with
      | none => simp [hc] at hstep
      | some cost =>
        simp only [hc] at hstep
        by_cases hcc : pyContains cost ',' = true
        · simp only [hcc, if_true] at hstep
          cases hstep
          exact addError_preserves_head _ _ _ _ x hx
        · simp only [hcc] at hstep
          simp at hstep
          cases hstep
          exact hx

theorem commasBudget_spec (meta : Dict) (st : ErrSt) (b : String)
    (hb : dGet? meta "budget" = some b) (hc : pyContains b ',' = true) :
    commasBudget meta st =
      some (dSet meta "budget" (pyReplace b ',' '.'),
            addError st "comma in float!" "in budget") := by
  unfold commasBudget
  rw [hb]
  have : (if pyContains b ',' then
            some (dSet meta "budget" (pyReplace b ',' '.'),
                  addError st "comma in float!" "in budget")
          else some (meta, st)) =
         some (dSet meta "budget" (pyReplace b ',' '.'),
               addError st "comma in float!" "in budget") := by
    simp [hc]
  exact this

theorem commasMaxSumCost_budget (meta : Dict) (st : ErrSt) :
    dGet? (commasMaxSumCost meta st).1 "budget" = dGet? meta "budget" := by
  unfold commasMaxSumCost
  cases h : dGet? meta "max_sum_cost" with
  | none => rfl
  | some msc =>
    by_cases hg : ¬ msc.isEmpty ∧ pyContains msc ',' = true
    · simp only [hg, if_true]
      exact dGet?_dSet_ne meta "max_sum_cost" "budget" _ (by decide)
    · simp only [hg]
      simp [hg]

theorem commasMaxSumCost_preserves_head (meta : Dict) (st : ErrSt) (x : Nat × String)
    (h : (dGetD st.fileResults "comma in float!" []).head? = some x) :
    (dGetD (commasMaxSumCost meta st).2.fileResults "comma in float!" []).head? = some x := by
  unfold commasMaxSumCost
  cases hm : dGet? meta "max_sum_cost" with
  | none => exact h
  | some msc =>
    by_cases hg : ¬ msc.isEmpty ∧ pyContains msc ',' = true
    · simp only [hg, if_true]
      exact addError_preserves_head _ _ _ _ x h
    · simp only [hg]
      simp only [if_false]
      simpa using h

/-- C8 (amended): a comma inside the META budget is flagged as
`comma in float!` with detail `in budget` (numbered 1 on a fresh state)
and the stored value is repaired in place by replacing each comma with a
dot — not by deleting it — and the repaired META is what the rest of the
pass receives. -/
theorem comma_budget_repaired (meta : Dict) (projects : List (String × Dict))
    (b : String) (out : Dict × List (String × Dict) × ErrSt)
    (hb : dGet? meta "budget" = some b) (hc : pyContains b ',' = true)
    (h : checkIfCommasInFloats meta projects {} = some out) :
    dGet? out.1 "budget" = some (pyReplace b ',' '.') ∧
    (dGetD out.2.2.fileResults "comma in float!" []).head? = some (1, "in budget") := by
  unfold checkIfCommasInFloats at h
  rw [commasBudget_spec meta {} b hb hc] at h
  have h2 :
      (match commasMaxSumCost (dSet meta "budget" (pyReplace b ',' '.'))
              (addError {} "comma in float!" "in budget") with
       | (meta2, st2) =>
         (projects.foldlM commasFixProject (projects, st2)).bind
           (fun r => some (meta2, r.1, r.2))) = some out := h
  cases hmc : commasMaxSumCost (dSet meta "budget" (pyReplace b ',' '.'))
      (addError {} "comma in float!" "in budget") with
  | mk meta2 st2 =>
    rw [hmc] at h2
    simp only at h2
    cases hfold : projects.foldlM commasFixProject (projects, st2) with
    | none =>
      rw [hfold] at h2
      simp at h2
    | some r =>
      rw [hfold] at h2
      simp only [Option.bind] at h2
      have hout : out = (meta2, r.1, r.2) := by
        cases h2
        rfl
      subst hout
      constructor
      · have hbud2 : dGet? meta2 "budget" = some (pyReplace b ',' '.') := by
          have := commasMaxSumCost_budget (dSet meta "budget" (pyReplace b ',' '.'))
            (addError {} "comma in float!" "in budget")
          rw [hmc] at this
          simp only at this
          rw [this]
          exact dGet?_dSet_self meta "budget" (pyReplace b ',' '.')
        exact hbud2
      · have hbase :
            (dGetD (addError {} "comma in float!" "in budget").fileResults
              "comma in float!" []).head? = some (1, "in budget") := by decide
        have hmid :
            (dGetD st2.fileResults "comma in float!" []).head? = some (1, "in budget") := by
          have := commasMaxSumCost_preserves_head
            (dSet meta "budget" (pyReplace b ',' '.'))
            (addError {} "comma in float!" "in budget") (1, "in budget") hbase
          rw [hmc] at this
          exact this
        exact commasLoop_preserves_head projects (projects, st2) r (1, "in budget") hmid hfold

/-! ## Driver accounting lemmas -/

/-- The shape of a recorded per-file entry: `"File looks correct!"` or a
non-empty diagnostics record. -/
def entryOk : FileEntry → Prop
  | .looksCorrect => True
  | .problems r => r ≠ []

theorem processOneFile_fields (c : Checker) (idx : Nat) (f : PBFile) (c' : Checker)
    (h : processOneFile c idx f = some c') :
    c'.processed = c.processed + 1 ∧
    ((c'.valid = c.valid + 1 ∧ c'.invalid = c.invalid) ∨
     (c'.valid = c.valid ∧ c'.invalid = c.invalid + 1)) ∧
    ∃ e, c'.entries = c.entries ++ [(idx, e)] ∧ entryOk e := by
  simp only [processOneFile] at h
  cases hr : runChecks f.meta f.projects f.votes f.votesInProjects f.scoresInProjects
      (checkEmptyLines f.lines (startFile c).errSt).2 with
  | none =>
    rw [hr] at h
    simp at h
  | some est2 =>
    rw [hr] at h
    by_cases he : est2.fileResults.isEmpty
    · simp only [he, if_true] at h
      cases h
      refine ⟨rfl, Or.inl ⟨rfl, rfl⟩, ⟨.looksCorrect, rfl, trivial⟩⟩
    · simp only [he, if_false] at h
      cases h
      refine ⟨rfl, Or.inr ⟨rfl, rfl⟩, ⟨.problems est2.fileResults, rfl, ?_⟩⟩
      intro hn
      rw [hn] at he
      simp at he

theorem processFilesFrom_accounting (files : List PBFile) :
    ∀ (c : Checker) (idx : Nat) (c' : Checker),
      processFilesFrom c idx files = some c' →
      c'.processed = c.processed + files.length ∧
      c'.valid + c'.invalid = c.valid + c.invalid + files.length ∧
      (∀ p ∈ c'.entries, p ∈ c.entries ∨ entryOk p.2) := by
  induction files with
  | nil =>
    intro c idx c' h
    have h' : some c = some c' := h
    cases h'
    exact ⟨rfl, rfl, fun p hp => Or.inl hp⟩
  | cons f fs ih =>
    intro c idx c' h
    unfold processFilesFrom at h
    cases ho : processOneFile c idx f with
    | none => rw [ho] at h; simp at h
    | some c2 =>
      rw [ho] at h
      obtain ⟨hp, hv, e, he, hok⟩ := processOneFile_fields c idx f c2 ho
      obtain ⟨ihp, ihv, ihe⟩ := ih c2 (idx + 1) c' h
      refine ⟨by rw [ihp, hp]; simp [List.length_cons]; omega, ?_, ?_⟩
      · rw [ihv]
        rcases hv with ⟨h1, h2⟩ | ⟨h1, h2⟩ <;> rw [h1, h2] <;> simp [List.length_cons] <;> omega
      · intro p hp2
        rcases ihe p hp2 with hin | hok2
        · rw [he] at hin
          rcases List.mem_append.mp hin with hin2 | hin3
          · exact Or.inl hin2
          · right
            have : p = (idx, e) := by simpa using hin3
            rw [this]
            exact hok
        · exact Or.inr hok2

/-! ## Remaining concrete inputs and extractors -/

def c4Projects : List (String × Dict) :=
  [("1", [("cost", "100"), ("votes", "2"), ("name", "P1")]),
   ("2", [("cost", "200"), ("votes", "2"), ("name", "P2")]),
   ("3", [("cost", "300"), ("votes", "1"), ("name", "P3")])]

def c4Votes : List (String × Dict) :=
  [("voter1", [("vote", "1,2")]), ("voter2", [("vote", "2,999")]),
   ("voter3", [("vote", "1,3")]), ("voter4", [("vote", "999")]),
   ("voter5", [("vote", "999")])]

def c4Out : ErrSt :=
  { fileResults := [("different values in votes",
      [(1, "project: `999` file votes (in PROJECTS section): `0` vs counted: 3")])],
    errorCounters := [("different values in votes", 2)],
    summary := [("different values in votes", 1)] }

def c7Out : ErrSt :=
  { fileResults := [("empty lines", [(1, "contains empty lines at: [2]")])],
    errorCounters := [("empty lines", 2)],
    summary := [("empty lines", 1)] }

def c8Out : ErrSt :=
  { fileResults := [("comma in float!", [(1, "in budget")])],
    errorCounters := [("comma in float!", 2)],
    summary := [("comma in float!", 1)] }

/-- Lookup of a per-file entry of the final report by its identifier. -/
def entryFor (c : Checker) (id : Nat) : Option FileEntry :=
  (c.entries.find? (fun p => p.1 == id)).map (fun p => p.2)

/-- The counter keys of one diagnostic type inside one file's record of the
final report. -/
def entryErrorNumbers (oc : Option Checker) (id : Nat) (t : String) : Option (List Nat) :=
  match oc with
  | none => none
  | some c =>
    match entryFor c id with
    | some (.problems r) => some ((dGetD r t []).map (fun e => e.1))
    | _ => none

/-! ## Claim theorems -/

/-- C1 (code bug): for the greedy rule the guard of
`verify_greedy_selected` tests `should_be_selected` twice, so a file whose
selected set strictly contains the replay winners gets no
`greedy rule not followed` diagnostic even though the two sets differ:
with budget 300 the replay admits only project 1, the file selects 1 and
2, and `verify_selected` returns an unchanged (empty) diagnostic state. -/
theorem greedy_one_sided_guard_bug :
    verifySelected greedyMeta greedyProjects false {} =
      some { fileResults := [], errorCounters := [], summary := [] } ∧
    specSelectedSet (sortProjectsByResults greedyProjects) = ["1", "2"] ∧
    specGreedyReplay ⟨300, 0⟩ (sortProjectsByResults greedyProjects) = ["1"] ∧
    (["1", "2"] : List String) ≠ ["1"] := by decide

/-- C2 (amended): `process_files` has no exception handler: when a
per-file step raises, the whole batch aborts — nothing is recorded for the
failing file and the remaining files are not processed. -/
theorem batch_abort_on_exception (c : Checker) (idx : Nat) (f : PBFile)
    (rest : List PBFile) (h : processOneFile c idx f = none) :
    processFilesFrom c idx (f :: rest) = none := by
  unfold processFilesFrom
  rw [h]

/-- Witness for `batch_abort_on_exception`: the unparsable budget of
`badBudgetFile` raises inside `check_budgets` and the batch aborts. -/
theorem batch_abort_on_exception_witness :
    processFilesFrom initChecker 1 (badBudgetFile :: [goodFile]) = none :=
  batch_abort_on_exception initChecker 1 badBudgetFile [goodFile] (by decide)

/-- C2 (counterexample to the claim as stated): a batch with a raising
first file yields no report at all — in particular the failing file is not
recorded with an `internal error` diagnostic and the following valid file
is never processed. -/
theorem internal_error_counterexample :
    processFiles [badBudgetFile, goodFile] = none := by decide

/-- C3 (code bug): a ballot shorter than the declared `min_length`
produces no diagnostic at all — the `vote length too short` branch of
`check_vote_length` builds the message but never records it. -/
theorem vote_length_too_short_not_emitted :
    (pySplit "1" ',').length = 1 ∧ (1 : Nat) < 2 ∧
    checkVoteLength [("min_length", "2")] [("v1", [("vote", "1")])] {} =
      some { fileResults := [], errorCounters := [], summary := [] } := by decide

/-- C4 (code bug): project id `999` is referenced by three distinct
ballots and absent from PROJECTS, yet the checker emits no
`vote for non-existent project` diagnostic — it emits a single
`different values in votes` entry for the id instead. -/
theorem nonexistent_project_diagnostic_absent :
    checkIfCorrectVotesNumber c4Projects c4Votes {} = some c4Out ∧
    dGet? c4Out.fileResults "vote for non-existent project" = none ∧
    (dGetD c4Out.fileResults "different values in votes" []).length = 1 := by decide

/-- C5 (code bug): with `fully_funded` unset and the budget exactly equal
to the sum of all project costs, `check_budgets` emits no
`all projects funded` diagnostic (the source tests strict `>`), contrary
to the claimed `≥` trigger. -/
theorem all_projects_funded_equality_silent :
    ((500 : Int) ≥ 300 + 200) ∧
    checkBudgets [("budget", "500")]
      [("1", [("cost", "300")]), ("2", [("cost", "200")])] {} =
      some { fileResults := [], errorCounters := [], summary := [] } := by decide

/-- C6 (code bug): with `fully_funded = 1` and total cost 600 above the
budget 500, `check_budgets` returns early and emits no
`wrong fully_funded flag` diagnostic (no code path emits that type). -/
theorem wrong_fully_funded_flag_not_emitted :
    ((200 : Int) + 400 > 500) ∧
    checkBudgets [("budget", "500"), ("fully_funded", "1")]
      [("1", [("cost", "200")]), ("2", [("cost", "400")])] {} =
      some { fileResults := [], errorCounters := [], summary := [] } := by decide

/-- C7 (code bug): `check_empty_lines` pops only the single trailing blank
line, leaves the interior blank line in place, and records an *error* of
type `empty lines` (message `contains empty lines at: [2]`) — there is no
`empty lines removed` warning and no removal. -/
theorem empty_lines_not_removed :
    checkEmptyLines ["line1", "", "line2", "line3", ""] {} =
      (["line1", "", "line2", "line3"], c7Out) ∧
    ("" ∈ ["line1", "", "line2", "line3"]) ∧
    dGet? c7Out.fileResults "empty lines removed" = none := by decide

/-- C8 (counterexample to the claim as stated): on `budget = "1,000.50"`
the comma check stores `"1.000.50"` — the comma is replaced by a dot, not
deleted, so the repaired value is not the claimed `"1000.50"`. -/
theorem comma_budget_not_comma_free :
    checkIfCommasInFloats [("budget", "1,000.50")] [] {} =
      some ([("budget", "1.000.50")], [], c8Out) ∧
    ("1.000.50" : String) ≠ "1000.50" := by decide

/-- Witness for `comma_budget_repaired` at `budget = "1,000.50"`. -/
theorem comma_budget_repaired_witness :
    dGet? ([("budget", "1.000.50")] : Dict) "budget" = some (pyReplace "1,000.50" ',' '.') ∧
    (dGetD c8Out.fileResults "comma in float!" []).head? = some (1, "in budget") :=
  comma_budget_repaired [("budget", "1,000.50")] [] "1,000.50"
    ([("budget", "1.000.50")], [], c8Out) (by decide) (by decide) (by decide)

/-- C9 (amended): diagnostic numbering comes from `error_counters`, a
per-type counter of the whole batch: `add_error` stamps the current
counter value (1 on a fresh checker) and increments it, while the per-file
reset at the top of `process_files` clears `file_results` but leaves
`error_counters` untouched. -/
theorem add_error_numbering :
    (∀ (st : ErrSt) (t d : String),
      (addError st t d).errorCounters =
        dSet st.errorCounters t (dGetD st.errorCounters t 1 + 1) ∧
      dGet? (addError st t d).fileResults t =
        some (dGetD st.fileResults t [] ++ [(dGetD st.errorCounters t 1, d)])) ∧
    (∀ c : Checker, (startFile c).errSt.errorCounters = c.errSt.errorCounters) := by
  constructor
  · intro st t d
    exact ⟨addError_errorCounters st t d, addError_fileResults_self st t d⟩
  · intro c
    rfl

/-- C9 (counterexample to the claim as stated): processing the same
erroneous file twice, the second file's only `different number of votes`
diagnostic is numbered 2, not 1 — the counter is not per-file. -/
theorem second_file_counter_not_reset :
    entryErrorNumbers (processFiles [badVotesFile, badVotesFile]) 2
      "different number of votes" = some [2] ∧ (2 : Nat) ≠ 1 := by decide

/-- C10: each successfully processed file bumps `processed` by one and
exactly one of `valid`/`invalid` by one and appends one entry under its
identifier (either `File looks correct!` or a non-empty diagnostics
record), and any completed batch satisfies
`processed = valid + invalid = number of inputs` with every recorded entry
of that shape. -/
theorem process_files_accounting :
    (∀ (c : Checker) (idx : Nat) (f : PBFile) (c' : Checker),
      processOneFile c idx f = some c' →
      c'.processed = c.processed + 1 ∧
      ((c'.valid = c.valid + 1 ∧ c'.invalid = c.invalid) ∨
       (c'.valid = c.valid ∧ c'.invalid = c.invalid + 1)) ∧
      ∃ e, c'.entries = c.entries ++ [(idx, e)] ∧ entryOk e) ∧
    (∀ (files : List PBFile) (c' : Checker),
      processFiles files = some c' →
      c'.processed = c'.valid + c'.invalid ∧
      c'.processed = files.length ∧
      ∀ p ∈ c'.entries, entryOk p.2) := by
  constructor
  · exact processOneFile_fields
  · intro files c' h
    obtain ⟨hp, hv, he⟩ := processFilesFrom_accounting files initChecker 1 c' h
    refine ⟨?_, ?_, ?_⟩
    · rw [hp, hv]
      simp [initChecker]
    · rw [hp]
      simp [initChecker]
    · intro p hp2
      rcases he p hp2 with hin | hok
      · simp [initChecker] at hin
      · exact hok

/-- Witness for `process_files_accounting`: the valid `goodFile` yields a
report with `processed = 1 = valid + invalid`. -/
theorem process_files_accounting_witness :
    processFiles [goodFile] = some goodOutChecker ∧
    goodOutChecker.processed = goodOutChecker.valid + goodOutChecker.invalid := by
  have h : processFiles [goodFile] = some goodOutChecker := by decide
  exact ⟨h, (process_files_accounting.2 [goodFile] goodOutChecker h).1⟩
